import Mathlib

/-!
Shallow embedding of the core of `pydantic-argparse`: the field-type dispatch
(`ArgumentParser._add_field`), the per-category argument builders
(`parsers/boolean.py`, `parsers/container.py`, `parsers/literal.py`,
`parsers/enum.py`), the caster/validator wrapper (`utils/pydantic.as_validator`),
the namespace reconstructor (`utils/namespaces.to_dict`), the sub-command
dispatch action (`argparse/actions.SubParsersAction.__call__`) and the
parse-then-validate-then-report pipeline (`ArgumentParser.parse_typed_args` /
`ArgumentParser.error`).

Python exceptions are modelled with `Except`; the external collaborators
(`argparse`'s token engine, `pydantic`'s model construction, and
`ast.literal_eval`) are abstracted as function parameters, following the
"small contract" boundaries the code itself uses.
-/

namespace PydanticArgparse

/-- Python runtime values, restricted to the shapes the argument-parsing
pipeline manipulates: `None`, booleans, integers, strings, lists of raw
string tokens (the shape `argparse` produces for `nargs='+'`), enum members
(identified by their member name), and otherwise-opaque objects abstracted by
a display tag plus their Python truth value (e.g. results of the external
`ast.literal_eval`). -/
inductive PyValue where
  | none
  | bool (b : Bool)
  | int (n : Int)
  | str (s : String)
  | strList (xs : List String)
  | enumMember (name : String)
  | obj (tag : String) (isTruthy : Bool)
  deriving Repr, DecidableEq

/-- Python truthiness, `bool(x)`, for the embedded value universe. -/
def PyValue.truthy : PyValue → Bool
  | .none => false
  | .bool b => b
  | .int n => n != 0
  | .str s => s ≠ ""
  | .strList xs => !xs.isEmpty
  | .enumMember _ => true
  | .obj _ t => t

/-- Python `str(x)` for the embedded values. Only scalar values ever reach
`str()` in the modelled code paths (`typing.Literal` arguments are restricted
by Python to ints, strings, bools, `None` and enum members), so the rendering
of `strList` values, while present, is never load-bearing. -/
def PyValue.pyStr : PyValue → String
  | .none => "None"
  | .bool b => if b then "True" else "False"
  | .int n => toString n
  | .str s => s
  | .strList xs => "[" ++ String.intercalate ", " (xs.map (fun x => "'" ++ x ++ "'")) ++ "]"
  | .enumMember n => n
  | .obj tag _ => tag

/-- Python type descriptors as seen by the dispatch: the value of
`typing.get_origin(field.outer_type_) or field.outer_type_`, carrying along
the data the builders later extract from the annotation (the arguments of a
`typing.Literal`, the member names of an `enum.Enum` subclass). -/
inductive PyType where
  | model (name : String)
  | bool
  | str
  | bytes
  | list
  | tuple
  | set
  | frozenset
  | deque
  | dict
  | lit (args : List PyValue)
  | enum (members : List String)
  | int
  | float
  | other (name : String)
  deriving Repr, DecidableEq

/-- Whether the descriptor denotes an actual class (`isinstance(t, type)`);
`typing.Literal[...]` is a special form, not a class. -/
def PyType.isClass : PyType → Bool
  | .lit _ => false
  | _ => true

/-- The Python fact `issubclass(t, collections.abc.Container)` for the
embedded types: textual and collection types define `__contains__`;
`pydantic.BaseModel`, `bool`, enums and the scalar types do not. -/
def PyType.isContainerSubclass : PyType → Bool
  | .str | .bytes | .list | .tuple | .set | .frozenset | .deque | .dict => true
  | _ => false

/-- The Python fact `issubclass(t, collections.abc.Mapping)`. -/
def PyType.isMappingSubclass : PyType → Bool
  | .dict => true
  | _ => false

/-- An argument-model field, as the dispatch sees it: the attribute name, the
resolved outer type descriptor, `field.required`, the result of
`field.get_default()` (which is `None` when no default was declared), and
`field.allow_none`. -/
structure Field where
  name : String
  outerType : PyType
  required : Bool
  default : PyValue
  allowNone : Bool

/-- `parsers.command.should_parse`: `utils.types.is_field_a(field,
pydantic.BaseModel)`, true exactly when the field type is a `BaseModel`
subclass. -/
def commandShouldParse (f : Field) : Bool :=
  match f.outerType with
  | .model _ => true
  | _ => false

/-- `parsers.boolean.should_parse`: `utils.types.is_field_a(field, bool)`. -/
def booleanShouldParse (f : Field) : Bool :=
  match f.outerType with
  | .bool => true
  | _ => false

/-- `parsers.container.should_parse`: the type is a class that subclasses
`collections.abc.Container`, does not subclass `collections.abc.Mapping`, and
is neither `str` nor `bytes`. -/
def containerShouldParse (f : Field) : Bool :=
  (f.outerType.isClass && f.outerType.isContainerSubclass) &&
  (f.outerType.isClass && !f.outerType.isMappingSubclass) &&
  !(f.outerType == .str) && !(f.outerType == .bytes)

/-- `parsers.mapping.should_parse`: `utils.types.is_field_a(field,
collections.abc.Mapping)`. -/
def mappingShouldParse (f : Field) : Bool :=
  f.outerType.isMappingSubclass

/-- `parsers.literal.should_parse`: `utils.types.is_field_a(field, Literal)`;
only the origin check applies because `Literal` is not a class. -/
def literalShouldParse (f : Field) : Bool :=
  match f.outerType with
  | .lit _ => true
  | _ => false

/-- `parsers.enum.should_parse`: `utils.types.is_field_a(field, enum.Enum)`. -/
def enumShouldParse (f : Field) : Bool :=
  match f.outerType with
  | .enum _ => true
  | _ => false

/-- The mutually exclusive field categories of the dispatch. -/
inductive Category where
  | command
  | boolean
  | container
  | mapping
  | literal
  | enumeration
  | standard
  deriving Repr, DecidableEq

/-- `ArgumentParser._add_field`: the first-match-wins dispatch over the
`should_parse` tests, in source order, falling through to the standard
builder. -/
def addFieldCategory (f : Field) : Category :=
  if commandShouldParse f then .command
  else if booleanShouldParse f then .boolean
  else if containerShouldParse f then .container
  else if mappingShouldParse f then .mapping
  else if literalShouldParse f then .literal
  else if enumShouldParse f then .enumeration
  else .standard

/-- `utils.argument_name` / `utils.arguments.name`: prepend `--` and replace
underscores with dashes (`str.replace` with the single-character pattern `_`
acts character-wise). -/
def argumentName (name : String) : String :=
  "--" ++ String.mk (name.data.map (fun c => if c = '_' then '-' else c))

/-- The `--no-` variant that `argparse.BooleanOptionalAction` registers next
to a `--name` option string. -/
def negatedFlag (flag : String) : String :=
  "--no-" ++ String.mk (flag.data.drop 2)

/-- Python `str.upper()` (ASCII), used for `metavar=field.name.upper()`. -/
def pyUpper (name : String) : String :=
  String.mk (name.data.map Char.toUpper)

/-- Exceptions raised by casters; the pipeline only ever distinguishes
"some exception was raised", so one tag per source exception type suffices. -/
inductive PyErr where
  | valueError
  | literalEvalFailure
  deriving Repr, DecidableEq

/-- The `__validator` closure built by `utils.pydantic.as_validator`: pass
non-string values through, turn the empty string into `None`, try the wrapped
caster and fall back to the raw string on any exception. The codomain is
`Except` so that "the validator itself never raises" is an expressible (and
proved) property rather than a typing accident. -/
def asValidator (caster : String → Except PyErr PyValue) (value : PyValue) :
    Except PyErr PyValue :=
  match value with
  | .str s =>
    if s = "" then .ok .none
    else
      match caster s with
      | .ok r => .ok r
      | .error _ => .ok (.str s)
  | v => .ok v

/-- The caster the mapping builder attaches
(`parsers/mapping.py`: `as_validator(field, lambda v: ast.literal_eval(v))`),
with the external `ast.literal_eval` abstracted as `ev`. -/
def mappingCaster (ev : String → Except PyErr PyValue) : PyValue → Except PyErr PyValue :=
  asValidator ev

/-- The kinds of `argparse` actions the builders register. -/
inductive ActionKind where
  | store
  | storeTrue
  | storeFalse
  | storeConst
  | booleanOptional
  deriving Repr, DecidableEq

/-- An argument registration, as handed to the parsing engine: option string,
action, `nargs=ONE_OR_MORE` marker, required flag, default (`Option.none`
models "no default passed", i.e. `argparse.SUPPRESS`), `const`, `choices`,
the `type=` caster, destination and metavar. -/
structure ArgSpec where
  flag : String
  action : ActionKind
  nargsOneOrMore : Bool := false
  required : Bool
  default : Option PyValue := Option.none
  const : Option PyValue := Option.none
  choices : Option (List PyValue) := Option.none
  typeCaster : Option (String → Except PyErr PyValue) := Option.none
  dest : String
  metavar : Option String := Option.none

/-- Errors of the parse-and-validate pipeline for a single field. -/
inductive ParseErr where
  | unrecognizedArguments
  | wrongArity
  | invalidChoice
  | missingRequiredField (name : String)
  | castError (e : PyErr)
  deriving Repr, DecidableEq

/-- Option strings an action answers to: `BooleanOptionalAction` registers
both the given flag and its `--no-` variant. -/
def ArgSpec.optionStrings (s : ArgSpec) : List String :=
  match s.action with
  | .booleanOptional => [s.flag, negatedFlag s.flag]
  | _ => [s.flag]

/-- The value an action stores when one of its option strings is given with
the following value tokens, per the engine contract the builders rely on:
`store_true`/`store_false` store the fixed boolean, `store_const` stores the
registered constant, the paired boolean action stores `True` for the plain
flag and `False` for its `--no-` variant, and a plain store action consumes
one token (or one-or-more tokens under `nargs=ONE_OR_MORE`), running the
registered `type=` caster and `choices` membership check. -/
def ArgSpec.invoke (s : ArgSpec) (givenFlag : String) (tokens : List String) :
    Except ParseErr PyValue :=
  match s.action with
  | .storeTrue => .ok (.bool true)
  | .storeFalse => .ok (.bool false)
  | .storeConst => .ok (s.const.getD .none)
  | .booleanOptional => .ok (.bool (givenFlag == s.flag))
  | .store =>
    if s.nargsOneOrMore then
      if tokens.isEmpty then .error .wrongArity
      else .ok (.strList tokens)
    else
      match tokens with
      | [t] =>
        match s.typeCaster with
        | some caster =>
          match caster t with
          | .ok v =>
            match s.choices with
            | some cs => if cs.contains v then .ok v else .error .invalidChoice
            | Option.none => .ok v
          | .error e => .error (.castError e)
        | Option.none =>
          match s.choices with
          | some cs => if cs.contains (.str t) then .ok (.str t) else .error .invalidChoice
          | Option.none => .ok (.str t)
      | _ => .error .wrongArity

/-- Outcome of the engine for one registered argument: either the flag was
omitted (the parsed namespace gets the registered default, or stays absent
under `argparse.SUPPRESS`), or it was given with value tokens. -/
def runSpec (s : ArgSpec) : Option (String × List String) → Except ParseErr (Option PyValue)
  | Option.none => .ok s.default
  | some (fl, toks) =>
    if s.optionStrings.contains fl then (s.invoke fl toks).map some
    else .error .unrecognizedArguments

/-- The model-construction step for one field: a present value is accepted
as-is (coercion beyond the registered casters is outside the claims), a
missing key is a validation error for a required field and falls back to the
field default otherwise. -/
def pydanticFieldCheck (f : Field) : Option PyValue → Except ParseErr PyValue
  | some v => .ok v
  | Option.none => if f.required then .error (.missingRequiredField f.name) else .ok f.default

/-- End-to-end outcome for one field: the builders of this code base register
exactly one argument per non-command field, so a non-singleton registration
list is mapped to an error. -/
def fieldOutcome (f : Field) (specs : List ArgSpec)
    (given : Option (String × List String)) : Except ParseErr PyValue :=
  match specs with
  | [s] => (runSpec s given).bind (pydanticFieldCheck f)
  | _ => .error .unrecognizedArguments

/-- `parsers/boolean.py` `parse_boolean_field`: a required boolean gets the
paired on/off action with `required=True` and no default; an optional boolean
branches on the truthiness of `field.get_default()`, registering only the
negating `--no-name` `store_false` flag for a truthy default and only the
asserting `--name` `store_true` flag otherwise, each carrying the default. -/
def parse_boolean_field (f : Field) : List ArgSpec :=
  if f.required then
    [{ flag := argumentName f.name, action := .booleanOptional, required := true,
       dest := f.name }]
  else if f.default.truthy then
    [{ flag := argumentName ("no-" ++ f.name), action := .storeFalse, required := false,
       default := some f.default, dest := f.name }]
  else
    [{ flag := argumentName f.name, action := .storeTrue, required := false,
       default := some f.default, dest := f.name }]

/-- End-to-end outcome of a boolean field under a given invocation. -/
def boolOutcome (f : Field) (given : Option (String × List String)) :
    Except ParseErr PyValue :=
  fieldOutcome f (parse_boolean_field f) given

/-- `parsers/container.py` `parse_field`: one `store` argument with
`nargs=ONE_OR_MORE`; required if the field has no default, else optional with
the field default; no per-token caster (element coercion is delegated). -/
def parse_container_field (f : Field) : List ArgSpec :=
  if f.required then
    [{ flag := argumentName f.name, action := .store, nargsOneOrMore := true,
       required := true, dest := f.name, metavar := some (pyUpper f.name) }]
  else
    [{ flag := argumentName f.name, action := .store, nargsOneOrMore := true,
       required := false, default := some f.default, dest := f.name,
       metavar := some (pyUpper f.name) }]

/-- The arguments of a `typing.Literal` annotation (`typing.get_args`). -/
def getArgs : PyType → List PyValue
  | .lit args => args
  | _ => []

/-- The member names of an enum annotation. -/
def getEnumMembers : PyType → List String
  | .enum members => members
  | _ => []

/-- `parsers/literal.py` `_arg_to_choice`: return the first choice whose
`str()` equals the argument, else raise `ValueError`. -/
def argToChoice (choices : List PyValue) (argument : String) : Except PyErr PyValue :=
  match choices.find? (fun c => c.pyStr == argument) with
  | some c => .ok c
  | Option.none => .error .valueError

/-- `parsers/enum.py` `_arg_to_enum_member`: look the argument up as a member
name (`enum_type[argument]`), raising `ValueError` when absent. -/
def argToEnumMember (members : List String) (argument : String) : Except PyErr PyValue :=
  if members.contains argument then .ok (.enumMember argument) else .error .valueError

/-- `parsers/literal.py` `_parse_literal_field_required`: a single required
`store` argument whose `choices` are the literal constants, with the
string-to-choice caster. -/
def parse_literal_field_required (f : Field) : List ArgSpec :=
  [{ flag := argumentName f.name, action := .store, required := true,
     choices := some (getArgs f.outerType),
     typeCaster := some (argToChoice (getArgs f.outerType)),
     dest := f.name, metavar := some (pyUpper f.name) }]

/-- `parsers/literal.py` `_parse_literal_field_optional`: a single-choice
optional literal degenerates to a constant flag — inverting (`--no-name`,
`const=None`) when the default is non-null and the field allows null,
asserting (`--name`, `const=<the choice>`) otherwise; multi-choice optional
literals stay a `store` argument with `choices` and the caster. -/
def parse_literal_field_optional (f : Field) : List ArgSpec :=
  let choices := getArgs f.outerType
  if choices.length == 1 then
    if !(f.default == PyValue.none) && f.allowNone then
      [{ flag := argumentName ("no-" ++ f.name), action := .storeConst, required := false,
         const := some PyValue.none, default := some f.default, dest := f.name,
         metavar := some (pyUpper f.name) }]
    else
      [{ flag := argumentName f.name, action := .storeConst, required := false,
         const := some (choices.headD PyValue.none), default := some f.default,
         dest := f.name, metavar := some (pyUpper f.name) }]
  else
    [{ flag := argumentName f.name, action := .store, required := false,
       choices := some choices, typeCaster := some (argToChoice choices),
       default := some f.default, dest := f.name, metavar := some (pyUpper f.name) }]

/-- `parsers/literal.py` `parse_literal_field`: required/optional split. -/
def parse_literal_field (f : Field) : List ArgSpec :=
  if f.required then parse_literal_field_required f else parse_literal_field_optional f

/-- `parsers/enum.py` `_parse_enum_field_optional`: the enum counterpart of
the optional literal builder; for a single-member enum the constant is the
first (only) member, otherwise a `store` argument with the member-name
caster. -/
def parse_enum_field_optional (f : Field) : List ArgSpec :=
  let members := getEnumMembers f.outerType
  if members.length == 1 then
    if !(f.default == PyValue.none) && f.allowNone then
      [{ flag := argumentName ("no-" ++ f.name), action := .storeConst, required := false,
         const := some PyValue.none, default := some f.default, dest := f.name,
         metavar := some (pyUpper f.name) }]
    else
      [{ flag := argumentName f.name, action := .storeConst, required := false,
         const := some (.enumMember (members.headD "")), default := some f.default,
         dest := f.name, metavar := some (pyUpper f.name) }]
  else
    [{ flag := argumentName f.name, action := .store, required := false,
       choices := some (members.map PyValue.enumMember),
       typeCaster := some (argToEnumMember members),
       default := some f.default, dest := f.name, metavar := some (pyUpper f.name) }]

/-- End-to-end outcome of an optional literal field. -/
def litOptOutcome (f : Field) (given : Option (String × List String)) :
    Except ParseErr PyValue :=
  fieldOutcome f (parse_literal_field_optional f) given

/-- End-to-end outcome of an optional enum field. -/
def enumOptOutcome (f : Field) (given : Option (String × List String)) :
    Except ParseErr PyValue :=
  fieldOutcome f (parse_enum_field_optional f) given

/-- End-to-end outcome of a container field given its flag with tokens. -/
def containerOutcome (f : Field) (tokens : List String) : Except ParseErr PyValue :=
  fieldOutcome f (parse_container_field f) (some (argumentName f.name, tokens))

/-- End-to-end outcome of a literal field given its flag with one token. -/
def literalOutcome (f : Field) (token : String) : Except ParseErr PyValue :=
  fieldOutcome f (parse_literal_field f) (some (argumentName f.name, [token]))

/-- A value in a parsed namespace: either a nested sub-command namespace or a
plain parsed value. -/
inductive NSValue where
  | ns (fields : List (String × NSValue))
  | val (v : PyValue)

/-- A value in the reconstructed nested dictionary. -/
inductive DictValue where
  | dict (entries : List (String × DictValue))
  | val (v : PyValue)

/-- Recursive conversion of one namespace attribute value, the body of the
loop of `utils.namespaces.to_dict`: nested namespaces are reconstructed in
place, everything else passes through unchanged. -/
def nsValueToDict : NSValue → DictValue
  | .val v => .val v
  | .ns fs => .dict (fs.attach.map (fun p => (p.val.1, nsValueToDict p.val.2)))
decreasing_by
  obtain ⟨⟨k, v⟩, hp⟩ := p
  have := List.sizeOf_lt_of_mem hp
  simp at this ⊢
  omega

/-- `utils.namespaces.to_dict`: `vars(namespace)` as an ordered key/value
list, with every nested-namespace value recursively replaced. -/
def to_dict (fs : List (String × NSValue)) : List (String × DictValue) :=
  fs.map (fun p => (p.1, nsValueToDict p.2))

/-- Errors of `SubParsersAction.__call__`. -/
inductive SubParserError where
  | emptyValues
  | unknownParser (name : String) (choices : List String)
  deriving Repr, DecidableEq

/-- `setattr(namespace, name, value)` on the attribute list: overwrite the
existing binding or append a new one. -/
def setAttr : List (String × NSValue) → String → NSValue → List (String × NSValue)
  | [], k, v => [(k, v)]
  | (k', v') :: rest, k, v =>
    if k' == k then (k, v) :: rest else (k', v') :: setAttr rest k v

/-- `argparse/actions.py` `SubParsersAction.__call__`: pop the first token as
the sub-command name; an unregistered name raises an argument error listing
the registered choices; otherwise the child parser (abstracted by its
`parse_known_args` behaviour) parses the remaining tokens, the resulting
sub-namespace is embedded under the command name, and any leftover tokens
extend the parent namespace's unrecognized-arguments attribute (which is only
created when there are leftovers). -/
def subParsersCall
    (childParsers : List (String × (List String → List (String × NSValue) × List String)))
    (values : List String)
    (ns : List (String × NSValue))
    (unrecognized : Option (List String)) :
    Except SubParserError (List (String × NSValue) × Option (List String)) :=
  match values with
  | [] => .error .emptyValues
  | parserName :: argStrings =>
    match childParsers.lookup parserName with
    | Option.none => .error (.unknownParser parserName (childParsers.map Prod.fst))
    | some child =>
      let (subns, rest) := child argStrings
      .ok (setAttr ns parserName (.ns subns),
           if rest.isEmpty then unrecognized
           else some (unrecognized.getD [] ++ rest))

/-- The ways `ArgumentParser.error` ends: `self.exit(2, message)` or a raised
`argparse.ArgumentError` carrying the message. -/
inductive ErrResult where
  | exitWith (code : Nat) (message : String)
  | raiseArgumentError (message : String)
  deriving Repr, DecidableEq

/-- What `ArgumentParser.error` did: it always prints the usage message to
stderr first, then exits or raises. -/
structure ErrorReport where
  usagePrinted : Bool
  result : ErrResult
  deriving Repr, DecidableEq

/-- `ArgumentParser.error`: print usage to stderr, then exit with code 2 and
`"<prog>: error: <message>\n"` when configured to exit on error, else raise
an `argparse.ArgumentError` with `"<prog>: error: <message>"`. -/
def errorFn (exitOnError : Bool) (prog message : String) : ErrorReport :=
  { usagePrinted := true
    result :=
      if exitOnError then .exitWith 2 (prog ++ ": error: " ++ message ++ "\n")
      else .raiseArgumentError (prog ++ ": error: " ++ message) }

/-- `utils.errors.format`: `str(error)`; the validation error is abstracted
as its rendered message. -/
def errorsFormat (message : String) : String := message

/-- `ArgumentParser.parse_typed_args`: run the engine over the argument list,
reconstruct the nested dictionary, attempt model construction
(`self.model.parse_obj`, abstracted as `parseObj`), and on a validation error
report through `ArgumentParser.error`; on success return the model. -/
def parseTypedArgs {M : Type} (exitOnError : Bool) (prog : String)
    (engineParse : List String → List (String × NSValue))
    (parseObj : List (String × DictValue) → Except String M)
    (args : List String) : Sum M ErrorReport :=
  let ns := engineParse args
  let arguments := to_dict ns
  match parseObj arguments with
  | .ok m => .inl m
  | .error exc => .inr (errorFn exitOnError prog (errorsFormat exc))

/-- A required boolean field named `flag`, for concrete instantiations. -/
def reqBoolField : Field :=
  { name := "flag", outerType := .bool, required := true, default := .none,
    allowNone := false }

/-- An optional boolean field with default `True`. -/
def optTrueField : Field :=
  { name := "flag", outerType := .bool, required := false, default := .bool true,
    allowNone := false }

/-- An optional boolean field with default `False`. -/
def optFalseField : Field :=
  { name := "flag", outerType := .bool, required := false, default := .bool false,
    allowNone := false }

/-- An `Optional[bool]` field with default `None`: falsy but not `False`. -/
def optNoneBoolField : Field :=
  { name := "flag", outerType := .bool, required := false, default := .none,
    allowNone := true }

/-- An optional single-choice literal field with non-null default that allows
null. -/
def singleLitNullableField : Field :=
  { name := "mode", outerType := .lit [.str "only"], required := false,
    default := .str "only", allowNone := true }

/-- An optional single-choice literal field that does not allow null. -/
def singleLitPlainField : Field :=
  { name := "mode", outerType := .lit [.str "only"], required := false,
    default := .none, allowNone := false }

/-- An optional single-member enum field with non-null default allowing null. -/
def singleEnumNullableField : Field :=
  { name := "kind", outerType := .enum ["ONLY"], required := false,
    default := .enumMember "ONLY", allowNone := true }

/-- An optional single-member enum field that does not allow null. -/
def singleEnumPlainField : Field :=
  { name := "kind", outerType := .enum ["ONLY"], required := false,
    default := .none, allowNone := false }

/-- A required sequence-of-string field named `items`. -/
def itemsField : Field :=
  { name := "items", outerType := .list, required := true, default := .none,
    allowNone := false }

/-- A required `Literal["A", "B"]` field named `arg`. -/
def argABField : Field :=
  { name := "arg", outerType := .lit [.str "A", .str "B"], required := true,
    default := .none, allowNone := false }

/-- A tiny concrete stand-in for `ast.literal_eval`, used only to instantiate
the externally-parameterized caster theorems at concrete inputs: it parses
two fixed well-formed tokens and fails on everything else. -/
def evalFrag (s : String) : Except PyErr PyValue :=
  if s == "1" then .ok (.int 1)
  else if s == "\x7b'a': 2\x7d" then .ok (.obj "\x7b'a': 2\x7d" true)
  else .error .literalEvalFailure

/-- A concrete three-level nested namespace, as produced by a three-deep
sub-command chain each contributing one flag. -/
def threeLevelNS : List (String × NSValue) :=
  [("top", .val (.int 1)),
   ("walk", .ns
     [("mid", .val (.int 2)),
      ("deeper", .ns
        [("leaf", .val (.str "x"))])])]

/-- A concrete child-parser table for the sub-command dispatch: `walk` parses
its first token into a flag value and leaves the rest unconsumed. -/
def walkChildParsers :
    List (String × (List String → List (String × NSValue) × List String)) :=
  [("walk", fun args => ([("flag", .val (.str (args.headD "")))], args.drop 1))]

@[simp]
theorem except_ok_bind {ε α β : Type} (x : α) (g : α → Except ε β) :
    (Except.ok x : Except ε α).bind g = g x := rfl

@[simp]
theorem except_map_ok {ε α β : Type} (g : α → β) (x : α) :
    Except.map g (Except.ok x : Except ε α) = .ok (g x) := rfl

theorem nsValueToDict_val (v : PyValue) : nsValueToDict (.val v) = .val v := by
  simp [nsValueToDict]

theorem nsValueToDict_ns (fs : List (String × NSValue)) :
    nsValueToDict (.ns fs) = .dict (to_dict fs) := by
  simp only [nsValueToDict, to_dict]
  congr 1
  exact List.attach_map_val fs (fun q => (q.1, nsValueToDict q.2))

theorem negatedFlag_ne (fl : String) : negatedFlag fl ≠ fl := by
  intro h
  have hd : (negatedFlag fl).data = fl.data := by rw [h]
  simp only [negatedFlag, String.data_append] at hd
  have := congrArg List.length hd
  simp [List.length_drop] at this
  omega

theorem negatedFlag_beq_false (fl : String) : (negatedFlag fl == fl) = false :=
  beq_eq_false_iff_ne.mpr (negatedFlag_ne fl)

/-- C1: the field-type dispatch classifies every field by testing the
categories in the fixed order Command, Boolean, Container, Mapping, Literal,
Enumeration, falling through to Standard when no test matches; a
nested-model field is always dispatched as a Command, and a `str` or `bytes`
field is never dispatched as a Container. -/
theorem addField_dispatch_first_match :
    (∀ f : Field,
      (addFieldCategory f = .command ↔ commandShouldParse f = true) ∧
      (addFieldCategory f = .boolean ↔
        (commandShouldParse f = false ∧ booleanShouldParse f = true)) ∧
      (addFieldCategory f = .container ↔
        (commandShouldParse f = false ∧ booleanShouldParse f = false ∧
         containerShouldParse f = true)) ∧
      (addFieldCategory f = .mapping ↔
        (commandShouldParse f = false ∧ booleanShouldParse f = false ∧
         containerShouldParse f = false ∧ mappingShouldParse f = true)) ∧
      (addFieldCategory f = .literal ↔
        (commandShouldParse f = false ∧ booleanShouldParse f = false ∧
         containerShouldParse f = false ∧ mappingShouldParse f = false ∧
         literalShouldParse f = true)) ∧
      (addFieldCategory f = .enumeration ↔
        (commandShouldParse f = false ∧ booleanShouldParse f = false ∧
         containerShouldParse f = false ∧ mappingShouldParse f = false ∧
         literalShouldParse f = false ∧ enumShouldParse f = true)) ∧
      (addFieldCategory f = .standard ↔
        (commandShouldParse f = false ∧ booleanShouldParse f = false ∧
         containerShouldParse f = false ∧ mappingShouldParse f = false ∧
         literalShouldParse f = false ∧ enumShouldParse f = false))) ∧
    (∀ (nm fname : String) (req : Bool) (d : PyValue) (an : Bool),
      addFieldCategory ⟨fname, .model nm, req, d, an⟩ = .command) ∧
    (∀ (fname : String) (req : Bool) (d : PyValue) (an : Bool),
      addFieldCategory ⟨fname, .str, req, d, an⟩ ≠ .container ∧
      addFieldCategory ⟨fname, .bytes, req, d, an⟩ ≠ .container) := by
  refine ⟨?_, ?_, ?_⟩
  · intro f
    obtain ⟨n, t, r, d, a⟩ := f
    cases t <;>
      simp [addFieldCategory, commandShouldParse, booleanShouldParse,
        containerShouldParse, mappingShouldParse, literalShouldParse,
        enumShouldParse, PyType.isClass, PyType.isContainerSubclass,
        PyType.isMappingSubclass]
  · intro nm fname req d an
    simp [addFieldCategory, commandShouldParse]
  · intro fname req d an
    constructor <;>
      simp [addFieldCategory, commandShouldParse, booleanShouldParse,
        containerShouldParse, mappingShouldParse, literalShouldParse,
        enumShouldParse, PyType.isClass, PyType.isContainerSubclass,
        PyType.isMappingSubclass]

/-- Witness for C1: a concrete nested-model field is dispatched as a
Command, and a concrete `str` field is not dispatched as a Container. -/
theorem addField_dispatch_first_match_witness :
    addFieldCategory ⟨"sub", .model "Sub", true, .none, false⟩ = .command ∧
    addFieldCategory ⟨"s", .str, true, .none, false⟩ ≠ .container := by
  refine ⟨addField_dispatch_first_match.2.1 "Sub" "sub" true .none false,
    (addField_dispatch_first_match.2.2 "s" true .none false).1⟩

/-- C2: the wrapped per-field validator built by `as_validator` passes every
non-string value through unchanged, maps the empty string to `None`, and for
any non-empty string on which the wrapped caster raises it returns the
original string unchanged instead of raising. -/
theorem as_validator_contract (caster : String → Except PyErr PyValue) :
    (∀ v : PyValue, (∀ s, v ≠ .str s) → asValidator caster v = .ok v) ∧
    asValidator caster (.str "") = .ok .none ∧
    (∀ s e, caster s = .error e → s ≠ "" → asValidator caster (.str s) = .ok (.str s)) := by
  refine ⟨?_, by simp [asValidator], ?_⟩
  · intro v hv
    cases v with
    | str s => exact absurd rfl (hv s)
    | _ => rfl
  · intro s e he hs
    simp [asValidator, hs, he]

/-- Witness for C2: the contract at a concrete always-raising caster, a
non-string value, the empty string, and a concrete non-empty string. -/
theorem as_validator_contract_witness :
    asValidator (fun _ => .error .valueError) (.int 7) = .ok (.int 7) ∧
    asValidator (fun _ => .error .valueError) (.str "") = .ok .none ∧
    asValidator (fun _ => .error .valueError) (.str "abc") = .ok (.str "abc") := by
  refine ⟨(as_validator_contract _).1 (.int 7) (fun s h => PyValue.noConfusion h),
    (as_validator_contract _).2.1,
    (as_validator_contract _).2.2 "abc" .valueError rfl (by decide)⟩

/-- C3: the caster attached to a mapping field (the validator wrapping
`ast.literal_eval`) returns the parsed value on a well-formed token, returns
the original raw string unchanged on every token the literal parse rejects,
coerces the empty string to `None`, and never raises. -/
theorem mapping_caster_contract (ev : String → Except PyErr PyValue) :
    (∀ s r, s ≠ "" → ev s = .ok r → mappingCaster ev (.str s) = .ok r) ∧
    (∀ s e, s ≠ "" → ev s = .error e → mappingCaster ev (.str s) = .ok (.str s)) ∧
    mappingCaster ev (.str "") = .ok .none ∧
    (∀ v, ∃ r, mappingCaster ev v = .ok r) := by
  refine ⟨?_, ?_, by simp [mappingCaster, asValidator], ?_⟩
  · intro s r hs he
    simp [mappingCaster, asValidator, hs, he]
  · intro s e hs he
    simp [mappingCaster, asValidator, hs, he]
  · intro v
    cases v with
    | str s =>
      by_cases hs : s = ""
      · exact ⟨.none, by simp [mappingCaster, asValidator, hs]⟩
      · cases hev : ev s with
        | ok r => exact ⟨r, by simp [mappingCaster, asValidator, hs, hev]⟩
        | error e => exact ⟨.str s, by simp [mappingCaster, asValidator, hs, hev]⟩
    | _ => exact ⟨_, rfl⟩

/-- Witness for C3: the contract at the concrete literal-evaluator fragment,
on a well-formed dictionary token, a malformed token, and the empty string. -/
theorem mapping_caster_contract_witness :
    mappingCaster evalFrag (.str "\x7b'a': 2\x7d") = .ok (.obj "\x7b'a': 2\x7d" true) ∧
    mappingCaster evalFrag (.str "\x7b'a':") = .ok (.str "\x7b'a':") ∧
    mappingCaster evalFrag (.str "") = .ok .none := by
  refine ⟨(mapping_caster_contract evalFrag).1 "\x7b'a': 2\x7d" _ (by decide) rfl,
    (mapping_caster_contract evalFrag).2.1 "\x7b'a':" .literalEvalFailure (by decide) rfl,
    (mapping_caster_contract evalFrag).2.2.1⟩

/-- C6: whenever the assembled input fails model validation,
`parse_typed_args` never returns a model: the failure goes through `error`,
which records a usage message and then exits with code 2 when
`exit_on_error` is set, else raises an argument error with the same
message. -/
theorem parse_typed_args_error_funnel {M : Type}
    (exitOnError : Bool) (prog : String)
    (engineParse : List String → List (String × NSValue))
    (parseObj : List (String × DictValue) → Except String M)
    (args : List String) (e : String)
    (hfail : parseObj (to_dict (engineParse args)) = .error e) :
    (∀ m : M, parseTypedArgs exitOnError prog engineParse parseObj args ≠ .inl m) ∧
    parseTypedArgs exitOnError prog engineParse parseObj args =
      .inr (errorFn exitOnError prog (errorsFormat e)) ∧
    (errorFn exitOnError prog (errorsFormat e)).usagePrinted = true ∧
    (exitOnError = true →
      (errorFn exitOnError prog (errorsFormat e)).result =
        .exitWith 2 (prog ++ ": error: " ++ e ++ "\n")) ∧
    (exitOnError = false →
      (errorFn exitOnError prog (errorsFormat e)).result =
        .raiseArgumentError (prog ++ ": error: " ++ e)) := by
  refine ⟨?_, ?_, rfl, fun h => ?_, fun h => ?_⟩
  · intro m
    simp [parseTypedArgs, hfail]
  · simp [parseTypedArgs, hfail]
  · simp [errorFn, errorsFormat, h]
  · simp [errorFn, errorsFormat, h]

/-- Witness for C6: the funnel at a concrete failing validation, in both the
exit-on-error and raise configurations. -/
theorem parse_typed_args_error_funnel_witness :
    parseTypedArgs true "prog" (fun _ => []) (fun _ => (.error "boom" : Except String Nat)) [] =
      .inr (errorFn true "prog" "boom") ∧
    parseTypedArgs false "prog" (fun _ => []) (fun _ => (.error "boom" : Except String Nat)) [] =
      .inr (errorFn false "prog" "boom") := by
  refine ⟨?_, ?_⟩
  · exact (parse_typed_args_error_funnel true "prog" (fun _ => [])
      (fun _ => (.error "boom" : Except String Nat)) [] "boom" rfl).2.1
  · exact (parse_typed_args_error_funnel false "prog" (fun _ => [])
      (fun _ => (.error "boom" : Except String Nat)) [] "boom" rfl).2.1

/-- C7: the namespace reconstructor keeps every key, maps every
non-namespace value through unchanged, and recursively replaces every nested
namespace value, at every depth, by its reconstructed dictionary. -/
theorem to_dict_reconstruction (fs : List (String × NSValue)) :
    (to_dict fs).map Prod.fst = fs.map Prod.fst ∧
    (∀ k x, (k, NSValue.val x) ∈ fs → (k, DictValue.val x) ∈ to_dict fs) ∧
    (∀ k gs, (k, NSValue.ns gs) ∈ fs → (k, DictValue.dict (to_dict gs)) ∈ to_dict fs) := by
  refine ⟨?_, ?_, ?_⟩
  · simp [to_dict]
  · intro k x h
    have := List.mem_map_of_mem (fun p => (p.1, nsValueToDict p.2)) h
    simpa [to_dict, nsValueToDict_val] using this
  · intro k gs h
    have := List.mem_map_of_mem (fun p => (p.1, nsValueToDict p.2)) h
    simpa [to_dict, nsValueToDict_ns] using this

/-- Witness for C7: the reconstruction applied to the concrete three-level
namespace, together with its full evaluation. -/
theorem to_dict_reconstruction_witness :
    ("walk", DictValue.dict (to_dict
        [("mid", NSValue.val (.int 2)),
         ("deeper", NSValue.ns [("leaf", NSValue.val (.str "x"))])])) ∈
      to_dict threeLevelNS ∧
    to_dict threeLevelNS =
      [("top", DictValue.val (.int 1)),
       ("walk", DictValue.dict
         [("mid", DictValue.val (.int 2)),
          ("deeper", DictValue.dict [("leaf", DictValue.val (.str "x"))])])] := by
  constructor
  · exact (to_dict_reconstruction threeLevelNS).2.2 "walk"
      [("mid", NSValue.val (.int 2)),
       ("deeper", NSValue.ns [("leaf", NSValue.val (.str "x"))])]
      (by simp [threeLevelNS])
  · simp [threeLevelNS, to_dict, nsValueToDict_ns, nsValueToDict_val]

/-- C4: the boolean builder registers, for a required field, exactly one
paired on/off argument with `required=True` and no default (so omitting both
flags is an error, and each member of the pair stores its truth value); for
an optional field with default `True` only the negating `--no-name` flag
whose presence stores `False`; for an optional field with default `False`
only the asserting `--name` flag whose presence stores `True`; omission
preserves the declared default in both optional cases. -/
theorem boolean_field_builder (f : Field) :
    (f.required = true →
      parse_boolean_field f =
        [{ flag := argumentName f.name, action := .booleanOptional, required := true,
           dest := f.name }] ∧
      boolOutcome f Option.none = .error (.missingRequiredField f.name) ∧
      boolOutcome f (some (argumentName f.name, [])) = .ok (.bool true) ∧
      boolOutcome f (some (negatedFlag (argumentName f.name), [])) = .ok (.bool false)) ∧
    (f.required = false → f.default = .bool true →
      parse_boolean_field f =
        [{ flag := argumentName ("no-" ++ f.name), action := .storeFalse, required := false,
           default := some (.bool true), dest := f.name }] ∧
      boolOutcome f (some (argumentName ("no-" ++ f.name), [])) = .ok (.bool false) ∧
      boolOutcome f Option.none = .ok (.bool true)) ∧
    (f.required = false → f.default = .bool false →
      parse_boolean_field f =
        [{ flag := argumentName f.name, action := .storeTrue, required := false,
           default := some (.bool false), dest := f.name }] ∧
      boolOutcome f (some (argumentName f.name, [])) = .ok (.bool true) ∧
      boolOutcome f Option.none = .ok (.bool false)) := by
  refine ⟨fun h => ⟨?_, ?_, ?_, ?_⟩, fun h hd => ⟨?_, ?_, ?_⟩, fun h hd => ⟨?_, ?_, ?_⟩⟩
  · simp [parse_boolean_field, h]
  · simp [boolOutcome, fieldOutcome, parse_boolean_field, h, runSpec, pydanticFieldCheck]
  · simp [boolOutcome, fieldOutcome, parse_boolean_field, h, runSpec,
      ArgSpec.optionStrings, ArgSpec.invoke, pydanticFieldCheck]
  · simp [boolOutcome, fieldOutcome, parse_boolean_field, h, runSpec,
      ArgSpec.optionStrings, ArgSpec.invoke, pydanticFieldCheck, negatedFlag_beq_false]
  · simp [parse_boolean_field, h, hd, PyValue.truthy]
  · simp [boolOutcome, fieldOutcome, parse_boolean_field, h, hd, PyValue.truthy,
      runSpec, ArgSpec.optionStrings, ArgSpec.invoke, pydanticFieldCheck]
  · simp [boolOutcome, fieldOutcome, parse_boolean_field, h, hd, PyValue.truthy,
      runSpec, pydanticFieldCheck]
  · simp [parse_boolean_field, h, hd, PyValue.truthy]
  · simp [boolOutcome, fieldOutcome, parse_boolean_field, h, hd, PyValue.truthy,
      runSpec, ArgSpec.optionStrings, ArgSpec.invoke, pydanticFieldCheck]
  · simp [boolOutcome, fieldOutcome, parse_boolean_field, h, hd, PyValue.truthy,
      runSpec, pydanticFieldCheck]

/-- Witness for C4: a required boolean field rejects omission, an optional
default-`True` field is negated by its `--no-` flag, and an optional
default-`False` field keeps its default when omitted. -/
theorem boolean_field_builder_witness :
    boolOutcome reqBoolField Option.none = .error (.missingRequiredField "flag") ∧
    boolOutcome optTrueField (some (argumentName ("no-" ++ "flag"), [])) = .ok (.bool false) ∧
    boolOutcome optFalseField Option.none = .ok (.bool false) := by
  refine ⟨((boolean_field_builder reqBoolField).1 rfl).2.1,
    ((boolean_field_builder optTrueField).2.1 rfl rfl).2.1,
    ((boolean_field_builder optFalseField).2.2 rfl rfl).2.2⟩

/-- C10: the optional-boolean builder branches on the truthiness of the
default, not on it being exactly `True`/`False`: every optional boolean
field with a falsy default (including `None`) gets the asserting `store_true`
flag carrying that default, so omission yields the default and presence
yields `True`; the negating flag appears exactly for truthy defaults. -/
theorem boolean_optional_truthiness (f : Field) :
    (f.required = false → f.default.truthy = false →
      parse_boolean_field f =
        [{ flag := argumentName f.name, action := .storeTrue, required := false,
           default := some f.default, dest := f.name }] ∧
      boolOutcome f Option.none = .ok f.default ∧
      boolOutcome f (some (argumentName f.name, [])) = .ok (.bool true)) ∧
    (f.required = false →
      ((parse_boolean_field f).any (fun s => decide (s.action = .storeFalse)) = true ↔
        f.default.truthy = true)) := by
  refine ⟨fun h ht => ⟨?_, ?_, ?_⟩, fun h => ?_⟩
  · simp [parse_boolean_field, h, ht]
  · simp [boolOutcome, fieldOutcome, parse_boolean_field, h, ht, runSpec, pydanticFieldCheck]
  · simp [boolOutcome, fieldOutcome, parse_boolean_field, h, ht, runSpec,
      ArgSpec.optionStrings, ArgSpec.invoke, pydanticFieldCheck]
  · by_cases ht : f.default.truthy <;> simp [parse_boolean_field, h, ht]

/-- Witness for C10: an `Optional[bool]` field with default `None` gets the
asserting flag, omission yields `None` (not `False`), presence yields
`True`, and no negating flag is generated. -/
theorem boolean_optional_truthiness_witness :
    boolOutcome optNoneBoolField Option.none = .ok .none ∧
    boolOutcome optNoneBoolField (some (argumentName "flag", [])) = .ok (.bool true) ∧
    ((parse_boolean_field optNoneBoolField).any
      (fun s => decide (s.action = .storeFalse)) = false) := by
  refine ⟨((boolean_optional_truthiness optNoneBoolField).1 rfl rfl).2.1,
    ((boolean_optional_truthiness optNoneBoolField).1 rfl rfl).2.2, ?_⟩
  have := ((boolean_optional_truthiness optNoneBoolField).2 rfl)
  simp [optNoneBoolField, PyValue.truthy] at this
  simpa using this

/-- C5: an optional literal or enum field with exactly one admissible value
becomes a constant flag: inverting (`--no-name`, storing `None`) when the
default is non-null and the field allows null, asserting (`--name`, storing
the unique constant or member) otherwise; absence preserves the default in
both cases. -/
theorem single_choice_optional_flag :
    (∀ (f : Field) (c : PyValue), getArgs f.outerType = [c] →
      ((f.default ≠ PyValue.none ∧ f.allowNone = true) →
        parse_literal_field_optional f =
          [{ flag := argumentName ("no-" ++ f.name), action := .storeConst,
             required := false, const := some PyValue.none, default := some f.default,
             dest := f.name, metavar := some (pyUpper f.name) }] ∧
        litOptOutcome f (some (argumentName ("no-" ++ f.name), [])) = .ok PyValue.none ∧
        litOptOutcome f Option.none = .ok f.default) ∧
      ((f.default = PyValue.none ∨ f.allowNone = false) →
        parse_literal_field_optional f =
          [{ flag := argumentName f.name, action := .storeConst, required := false,
             const := some c, default := some f.default, dest := f.name,
             metavar := some (pyUpper f.name) }] ∧
        litOptOutcome f (some (argumentName f.name, [])) = .ok c ∧
        litOptOutcome f Option.none = .ok f.default)) ∧
    (∀ (f : Field) (m : String), getEnumMembers f.outerType = [m] →
      ((f.default ≠ PyValue.none ∧ f.allowNone = true) →
        parse_enum_field_optional f =
          [{ flag := argumentName ("no-" ++ f.name), action := .storeConst,
             required := false, const := some PyValue.none, default := some f.default,
             dest := f.name, metavar := some (pyUpper f.name) }] ∧
        enumOptOutcome f (some (argumentName ("no-" ++ f.name), [])) = .ok PyValue.none ∧
        enumOptOutcome f Option.none = .ok f.default) ∧
      ((f.default = PyValue.none ∨ f.allowNone = false) →
        parse_enum_field_optional f =
          [{ flag := argumentName f.name, action := .storeConst, required := false,
             const := some (.enumMember m), default := some f.default, dest := f.name,
             metavar := some (pyUpper f.name) }] ∧
        enumOptOutcome f (some (argumentName f.name, [])) = .ok (.enumMember m) ∧
        enumOptOutcome f Option.none = .ok f.default)) := by
  constructor
  · intro f c hc
    constructor
    · rintro ⟨hd, ha⟩
      have hbeq : (f.default == PyValue.none) = false := beq_eq_false_iff_ne.mpr hd
      refine ⟨?_, ?_, ?_⟩ <;>
        simp [litOptOutcome, fieldOutcome, parse_literal_field_optional, hc, hbeq, ha,
          runSpec, ArgSpec.optionStrings, ArgSpec.invoke, pydanticFieldCheck]
    · intro hor
      have hcond : (!(f.default == PyValue.none) && f.allowNone) = false := by
        rcases hor with hd | ha
        · simp [hd]
        · simp [ha]
      refine ⟨?_, ?_, ?_⟩ <;>
        simp [litOptOutcome, fieldOutcome, parse_literal_field_optional, hc, hcond,
          runSpec, ArgSpec.optionStrings, ArgSpec.invoke, pydanticFieldCheck]
  · intro f m hm
    constructor
    · rintro ⟨hd, ha⟩
      have hbeq : (f.default == PyValue.none) = false := beq_eq_false_iff_ne.mpr hd
      refine ⟨?_, ?_, ?_⟩ <;>
        simp [enumOptOutcome, fieldOutcome, parse_enum_field_optional, hm, hbeq, ha,
          runSpec, ArgSpec.optionStrings, ArgSpec.invoke, pydanticFieldCheck]
    · intro hor
      have hcond : (!(f.default == PyValue.none) && f.allowNone) = false := by
        rcases hor with hd | ha
        · simp [hd]
        · simp [ha]
      refine ⟨?_, ?_, ?_⟩ <;>
        simp [enumOptOutcome, fieldOutcome, parse_enum_field_optional, hm, hcond,
          runSpec, ArgSpec.optionStrings, ArgSpec.invoke, pydanticFieldCheck]

/-- Witness for C5: the nullable single-choice literal and enum fields are
inverted to `None` by their `--no-` flag; the plain ones assert their unique
constant, and omission preserves the default. -/
theorem single_choice_optional_flag_witness :
    litOptOutcome singleLitNullableField
      (some (argumentName ("no-" ++ "mode"), [])) = .ok PyValue.none ∧
    litOptOutcome singleLitPlainField
      (some (argumentName "mode", [])) = .ok (.str "only") ∧
    enumOptOutcome singleEnumNullableField
      (some (argumentName ("no-" ++ "kind"), [])) = .ok PyValue.none ∧
    enumOptOutcome singleEnumPlainField Option.none = .ok PyValue.none := by
  refine ⟨(((single_choice_optional_flag).1 singleLitNullableField (.str "only") rfl).1
      ⟨by decide, rfl⟩).2.1,
    (((single_choice_optional_flag).1 singleLitPlainField (.str "only") rfl).2
      (Or.inl rfl)).2.1,
    (((single_choice_optional_flag).2 singleEnumNullableField "ONLY" rfl).1
      ⟨by decide, rfl⟩).2.1,
    (((single_choice_optional_flag).2 singleEnumPlainField "ONLY" rfl).2
      (Or.inl rfl)).2.2⟩

theorem lookup_setAttr (ns : List (String × NSValue)) (k : String) (v : NSValue) :
    (setAttr ns k v).lookup k = some v := by
  induction ns with
  | nil => simp [setAttr, List.lookup]
  | cons hd tl ih =>
    obtain ⟨k', v'⟩ := hd
    by_cases h : k' = k
    · simp [setAttr, h, List.lookup]
    · have h' : (k == k') = false := beq_eq_false_iff_ne.mpr (Ne.symm h)
      have h'' : (k' == k) = false := beq_eq_false_iff_ne.mpr h
      simp [setAttr, h'', List.lookup, h', ih]

/-- C8: the sub-command dispatch action rejects an unregistered first token
with an argument error listing the registered choices; on a registered name
the child parser handles the remaining tokens, the sub-namespace is embedded
in the parent namespace under the command name, and tokens the child did not
recognize extend the parent's unrecognized-arguments attribute instead of
being dropped (the attribute is left untouched when there are none). -/
theorem subparsers_call_dispatch
    (childParsers : List (String × (List String → List (String × NSValue) × List String)))
    (ns : List (String × NSValue)) (unrec : Option (List String))
    (parserName : String) (argStrings : List String) :
    (childParsers.lookup parserName = Option.none →
      subParsersCall childParsers (parserName :: argStrings) ns unrec =
        .error (.unknownParser parserName (childParsers.map Prod.fst))) ∧
    (∀ child, childParsers.lookup parserName = some child →
      ∃ u', subParsersCall childParsers (parserName :: argStrings) ns unrec =
          .ok (setAttr ns parserName (.ns (child argStrings).1), u') ∧
        (setAttr ns parserName (.ns (child argStrings).1)).lookup parserName =
          some (.ns (child argStrings).1) ∧
        ((child argStrings).2 = [] → u' = unrec) ∧
        ((child argStrings).2 ≠ [] →
          u' = some (unrec.getD [] ++ (child argStrings).2))) := by
  constructor
  · intro h
    simp [subParsersCall, h]
  · intro child hc
    refine ⟨if (child argStrings).2.isEmpty then unrec
        else some (unrec.getD [] ++ (child argStrings).2), ?_, lookup_setAttr ns _ _, ?_, ?_⟩
    · simp [subParsersCall, hc]
    · intro hrest
      simp [hrest]
    · intro hrest
      have hie : (child argStrings).2.isEmpty = false := by
        simp [List.isEmpty_iff, hrest]
      simp [hie]

/-- Witness for C8: the concrete child-parser table rejects the unknown
command `nope` listing `walk`, and dispatching `walk a b` embeds the
sub-namespace under `walk` while bubbling the unconsumed token `b` up. -/
theorem subparsers_call_dispatch_witness :
    subParsersCall walkChildParsers ["nope"] [] Option.none =
      .error (.unknownParser "nope" ["walk"]) ∧
    subParsersCall walkChildParsers ["walk", "a", "b"]
        [("top", NSValue.val (.int 1))] Option.none =
      .ok ([("top", NSValue.val (.int 1)), ("walk", NSValue.ns [("flag", NSValue.val (.str "a"))])],
           some ["b"]) := by
  constructor
  · exact (subparsers_call_dispatch walkChildParsers [] Option.none "nope" []).1 rfl
  · obtain ⟨u', h1, h2, h3, h4⟩ :=
      (subparsers_call_dispatch walkChildParsers [("top", NSValue.val (.int 1))]
        Option.none "walk" ["a", "b"]).2 _ rfl
    rw [h1, h4 (by decide)]
    rfl

theorem find_pyStr_eq_self (l : List PyValue) (c : PyValue)
    (hnd : (l.map PyValue.pyStr).Nodup) (hc : c ∈ l) :
    l.find? (fun x => x.pyStr == c.pyStr) = some c := by
  induction l with
  | nil => cases hc
  | cons a tl ih =>
    rw [List.map_cons, List.nodup_cons] at hnd
    obtain ⟨h1, h2⟩ := hnd
    rcases List.mem_cons.mp hc with rfl | hmem
    · simp [List.find?]
    · have hne : a.pyStr ≠ c.pyStr := by
        intro he
        exact h1 (he ▸ List.mem_map_of_mem PyValue.pyStr hmem)
      simp [List.find?, beq_eq_false_iff_ne.mpr hne, ih h2 hmem]

theorem pyvalue_contains_of_mem (l : List PyValue) (c : PyValue) (h : c ∈ l) :
    l.contains c = true := by
  induction l with
  | nil => cases h
  | cons a tl ih =>
    rcases List.mem_cons.mp h with rfl | hm
    · simp [List.contains, List.elem]
    · cases hac : (c == a) <;> simp [List.contains, List.elem, hac, ih hm, hm]

/-- C9: rendering a known value as flag tokens and parsing it back through
the registered argument reproduces the value: a required sequence-of-string
field given one-or-more tokens parses back to exactly that list of strings,
and a required literal field given the rendering of one of its choices
parses back to that choice (provided the choices render distinctly); in
particular `--items a b c` yields `["a","b","c"]` and `--arg B` on
`Literal["A","B"]` yields `"B"`. -/
theorem field_round_trip :
    (∀ (f : Field) (xs : List String), f.required = true → xs ≠ [] →
      containerOutcome f xs = .ok (.strList xs)) ∧
    (∀ (f : Field) (c : PyValue), f.required = true →
      ((getArgs f.outerType).map PyValue.pyStr).Nodup → c ∈ getArgs f.outerType →
      literalOutcome f c.pyStr = .ok c) ∧
    containerOutcome itemsField ["a", "b", "c"] = .ok (.strList ["a", "b", "c"]) ∧
    literalOutcome argABField "B" = .ok (.str "B") := by
  refine ⟨?_, ?_, by rfl, by rfl⟩
  · intro f xs h hxs
    simp [containerOutcome, fieldOutcome, parse_container_field, h, runSpec,
      ArgSpec.optionStrings, ArgSpec.invoke, pydanticFieldCheck, hxs]
  · intro f c h hnd hc
    simp [literalOutcome, fieldOutcome, parse_literal_field, h,
      parse_literal_field_required, runSpec, ArgSpec.optionStrings, ArgSpec.invoke,
      argToChoice, find_pyStr_eq_self _ _ hnd hc, pyvalue_contains_of_mem _ _ hc,
      hc, pydanticFieldCheck]

/-- Witness for C9: the round trip at concrete inputs via the general parts:
two tokens on the `items` field and the choice `A` on the `arg` field. -/
theorem field_round_trip_witness :
    containerOutcome itemsField ["x", "y"] = .ok (.strList ["x", "y"]) ∧
    literalOutcome argABField "A" = .ok (.str "A") := by
  refine ⟨(field_round_trip).1 itemsField ["x", "y"] rfl (by decide), ?_⟩
  exact (field_round_trip).2.1 argABField (.str "A") rfl (by decide) (by decide)

end PydanticArgparse
